import Mathlib

/-!
Verification of the gostripe payment-event reconciliation engine.

The definitions below are a shallow embedding of the repository source:
  * the durable schema from `migrations/*.sql`,
  * the row types and storage helpers from `models/customer.go`,
    `models/subscription.go`, `models/processed_session.go`,
  * the HTTP handlers from `api/stripe.go` and the ledger-aware
    `SyncSubscription` in the api package (session-scoped sync).

UUIDs are modelled as natural numbers drawn from a fresh-id counter held in
the database state; timestamps are modelled as integers (unix seconds).
Provider (Stripe) interactions are modelled as explicit inputs: the value the
provider would return is a parameter of the handler, and every provider call
and storage access performed by the handler is recorded in an operation
trace.  Storage faults are modelled only where a claim depends on them (the
Event Ledger lookup and write); all other storage operations are assumed to
succeed, matching the success paths the claims are about.
-/

namespace GoStripe

/-! ### Durable schema, from migrations/20240423000001_create_customers.up.sql,
20240423000002_create_subscriptions.up.sql and
20240423000004_create_processed_sessions.up.sql -/

/-- Column of a CREATE TABLE statement, with its column-level constraints. -/
structure SqlColumn where
  name : String
  sqlType : String
  primaryKey : Bool
  notNull : Bool
  unique : Bool
deriving DecidableEq, Repr

/-- Index created by a CREATE INDEX statement. -/
structure SqlIndex where
  name : String
  table : String
  column : String
  unique : Bool
deriving DecidableEq, Repr

/-- Table definition: name, columns, and foreign keys (column, referenced
table, referenced column). -/
structure SqlTable where
  name : String
  columns : List SqlColumn
  foreignKeys : List (String × String × String)
deriving DecidableEq, Repr

/-- The stripe_customers table exactly as created by the migration: no
column is declared UNIQUE; only the id primary key is constrained. -/
def stripeCustomersTable : SqlTable :=
  { name := "stripe_customers"
    columns :=
      [ ⟨"id", "UUID", true, false, false⟩,
        ⟨"user_id", "UUID", false, true, false⟩,
        ⟨"stripe_id", "VARCHAR(255)", false, true, false⟩,
        ⟨"email", "VARCHAR(255)", false, true, false⟩,
        ⟨"name", "VARCHAR(255)", false, false, false⟩,
        ⟨"created_at", "TIMESTAMP", false, true, false⟩,
        ⟨"updated_at", "TIMESTAMP", false, true, false⟩ ]
    foreignKeys := [] }

/-- The stripe_subscriptions table exactly as created by the migration:
stripe_id is NOT NULL but not UNIQUE. -/
def stripeSubscriptionsTable : SqlTable :=
  { name := "stripe_subscriptions"
    columns :=
      [ ⟨"id", "UUID", true, false, false⟩,
        ⟨"customer_id", "UUID", false, true, false⟩,
        ⟨"stripe_id", "VARCHAR(255)", false, true, false⟩,
        ⟨"status", "VARCHAR(50)", false, true, false⟩,
        ⟨"price_id", "VARCHAR(255)", false, true, false⟩,
        ⟨"current_period_end", "TIMESTAMP", false, true, false⟩,
        ⟨"canceled_at", "TIMESTAMP", false, false, false⟩,
        ⟨"created_at", "TIMESTAMP", false, true, false⟩,
        ⟨"updated_at", "TIMESTAMP", false, true, false⟩ ]
    foreignKeys := [("customer_id", "stripe_customers", "id")] }

/-- The stripe_processed_sessions table exactly as created by the migration:
session_id carries a column-level UNIQUE constraint. -/
def stripeProcessedSessionsTable : SqlTable :=
  { name := "stripe_processed_sessions"
    columns :=
      [ ⟨"id", "UUID", true, false, false⟩,
        ⟨"session_id", "VARCHAR(255)", false, true, true⟩,
        ⟨"user_id", "UUID", false, true, false⟩,
        ⟨"created_at", "TIMESTAMP", false, true, false⟩ ]
    foreignKeys := [] }

/-- Every index created by the migrations.  All of them are plain
CREATE INDEX statements: none is a CREATE UNIQUE INDEX. -/
def schemaIndexes : List SqlIndex :=
  [ ⟨"idx_stripe_customers_user_id", "stripe_customers", "user_id", false⟩,
    ⟨"idx_stripe_customers_stripe_id", "stripe_customers", "stripe_id", false⟩,
    ⟨"idx_stripe_subscriptions_customer_id", "stripe_subscriptions", "customer_id", false⟩,
    ⟨"idx_stripe_subscriptions_stripe_id", "stripe_subscriptions", "stripe_id", false⟩,
    ⟨"idx_stripe_processed_sessions_session_id", "stripe_processed_sessions", "session_id", false⟩ ]

/-- A column is storage-unique when it is a primary key, carries a UNIQUE
column constraint, or is covered by a unique index. -/
def enforcedUnique (t : SqlTable) (idxs : List SqlIndex) (col : String) : Bool :=
  t.columns.any (fun c => c.name == col && (c.primaryKey || c.unique)) ||
    idxs.any (fun ix => ix.table == t.name && ix.column == col && ix.unique)

/-- Columns of a table on which the storage layer rejects duplicates. -/
def uniqueColumns (t : SqlTable) (idxs : List SqlIndex) : List String :=
  ((t.columns.filter (fun c => c.primaryKey || c.unique)).map (fun c => c.name)) ++
    ((idxs.filter (fun ix => ix.table == t.name && ix.unique)).map (fun ix => ix.column))

/-- A stored row, as a list of column-name and value pairs. -/
abbrev SqlRow := List (String × String)

/-- Value of a column in a row. -/
def rowVal (r : SqlRow) (col : String) : Option String :=
  r.lookup col

/-- Whether the storage layer accepts inserting row `r` into table `t`
holding `existing` rows: every storage-unique column of `t` must not collide
with an existing row. -/
def insertOk (t : SqlTable) (idxs : List SqlIndex) (existing : List SqlRow) (r : SqlRow) : Bool :=
  (uniqueColumns t idxs).all (fun col =>
    existing.all (fun e => rowVal e col != rowVal r col))

/-! ### Row types, from models/customer.go, models/subscription.go and
models/processed_session.go -/

/-- Row of stripe_customers (models/customer.go, struct Customer). -/
structure Customer where
  id : Nat
  userID : Nat
  stripeID : String
  email : String
  name : String
  createdAt : Int
  updatedAt : Int
deriving DecidableEq, Repr

/-- Row of stripe_subscriptions (models/subscription.go, struct
Subscription).  The status column is a plain string in the source
(SubscriptionStatus is a string newtype), so it is a String here. -/
structure Subscription where
  id : Nat
  customerID : Nat
  stripeID : String
  status : String
  priceID : String
  currentPeriodEnd : Int
  canceledAt : Option Int
  createdAt : Int
  updatedAt : Int
deriving DecidableEq, Repr

/-- Row of stripe_processed_sessions (models/processed_session.go, struct
ProcessedSession): the Event Ledger entry. -/
structure ProcessedSession where
  id : Nat
  sessionID : String
  userID : Nat
  createdAt : Int
deriving DecidableEq, Repr

/-- Database state: the three durable tables plus a fresh-id counter that
stands for uuid generation. -/
structure DB where
  customers : List Customer
  subscriptions : List Subscription
  processedSessions : List ProcessedSession
  nextID : Nat
deriving DecidableEq, Repr

/-- models.SubscriptionStatusActive. -/
def subscriptionStatusActive : String := "active"

/-- models.SubscriptionStatusCanceled. -/
def subscriptionStatusCanceled : String := "canceled"

/-- models.FindCustomerByUserID: first row with the given user id. -/
def findCustomerByUserID (db : DB) (userID : Nat) : Option Customer :=
  db.customers.find? (fun c => c.userID == userID)

/-- models.FindCustomerByStripeID: first row with the given provider id. -/
def findCustomerByStripeID (db : DB) (stripeID : String) : Option Customer :=
  db.customers.find? (fun c => c.stripeID == stripeID)

/-- models.FindSubscriptionByStripeID. -/
def findSubscriptionByStripeID (db : DB) (stripeID : String) : Option Subscription :=
  db.subscriptions.find? (fun s => s.stripeID == stripeID)

/-- models.FindActiveSubscriptionByCustomerID: first row for the customer
whose status is active. -/
def findActiveSubscriptionByCustomerID (db : DB) (customerID : Nat) : Option Subscription :=
  db.subscriptions.find? (fun s => s.customerID == customerID && s.status == subscriptionStatusActive)

/-- models.FindProcessedSessionBySessionID, the Event Ledger lookup. -/
def findProcessedSessionBySessionID (db : DB) (sessionID : String) : Option ProcessedSession :=
  db.processedSessions.find? (fun p => p.sessionID == sessionID)

/-- models.CreateCustomer: inserts a fresh row and returns it. -/
def createCustomer (db : DB) (now : Int) (userID : Nat) (stripeID email name : String) :
    Customer × DB :=
  let c : Customer := ⟨db.nextID, userID, stripeID, email, name, now, now⟩
  (c, { db with customers := db.customers ++ [c], nextID := db.nextID + 1 })

/-- models.CreateSubscription: inserts a fresh row and returns it. -/
def createSubscription (db : DB) (now : Int) (customerID : Nat)
    (stripeID priceID status : String) (currentPeriodEnd : Int) :
    Subscription × DB :=
  let s : Subscription :=
    ⟨db.nextID, customerID, stripeID, status, priceID, currentPeriodEnd, none, now, now⟩
  (s, { db with subscriptions := db.subscriptions ++ [s], nextID := db.nextID + 1 })

/-- models.UpdateSubscription: full replace of the row with the same id,
refreshing updated-at. -/
def updateSubscription (db : DB) (now : Int) (s : Subscription) : DB :=
  let s2 := { s with updatedAt := now }
  { db with subscriptions := db.subscriptions.map (fun t => if t.id == s.id then s2 else t) }

/-- models.CreateProcessedSession: inserts a fresh Event Ledger entry. -/
def createProcessedSession (db : DB) (now : Int) (sessionID : String) (userID : Nat) : DB :=
  let p : ProcessedSession := ⟨db.nextID, sessionID, userID, now⟩
  { db with processedSessions := db.processedSessions ++ [p], nextID := db.nextID + 1 }

/-! ### Provider payloads, from the stripe-go values the handlers read -/

/-- Price object nested in a subscription item. -/
structure StripePrice where
  id : String
deriving DecidableEq, Repr

/-- Subscription item; its price pointer may be nil. -/
structure StripeItem where
  price : Option StripePrice
deriving DecidableEq, Repr

/-- Reference to a provider customer (only the id is read). -/
structure StripeCustomerRef where
  id : String
deriving DecidableEq, Repr

/-- Provider customer details returned by customer.Get. -/
structure StripeCustomerData where
  id : String
  email : String
  name : String
deriving DecidableEq, Repr

/-- Provider subscription object as read by the handlers. -/
structure StripeSub where
  id : String
  status : String
  currentPeriodEnd : Int
  canceledAt : Int
  customer : Option StripeCustomerRef
  items : List StripeItem
deriving DecidableEq, Repr

/-- Provider checkout session with expanded subscription and customer. -/
structure StripeSession where
  customer : Option StripeCustomerRef
  subscription : Option StripeSub
deriving DecidableEq, Repr

/-! ### Responses and operation traces -/

/-- JSON value stored in a response body. -/
inductive JVal where
  | s : String → JVal
  | b : Bool → JVal
  | i : Int → JVal
deriving DecidableEq, Repr

/-- HTTP response: status code and JSON body as key-value pairs, in the
order the source writes them. -/
structure Response where
  status : Nat
  body : List (String × JVal)
deriving DecidableEq, Repr

/-- One externally visible operation of a handler: a storage read, a
storage write (named by table), or a billing-provider call. -/
inductive Op where
  | dbRead : String → Op
  | dbWrite : String → Op
  | providerCall : String → Op
deriving DecidableEq, Repr

/-- Whether an operation is a billing-provider call. -/
def Op.isProviderCall : Op → Bool
  | .providerCall _ => true
  | _ => false

/-- Whether an operation is a storage write. -/
def Op.isWrite : Op → Bool
  | .dbWrite _ => true
  | _ => false

/-- Result of a handler invocation: the HTTP response, the database state
afterwards, and the trace of operations performed. -/
structure HandlerOutput where
  resp : Response
  db : DB
  ops : List Op
deriving DecidableEq, Repr

/-- Body sent by api.badRequestError. -/
def badRequestResponse (msg : String) : Response :=
  ⟨400, [("code", .i 400), ("message", .s msg)]⟩

/-- Body sent by api.notFoundError. -/
def notFoundResponse (msg : String) : Response :=
  ⟨404, [("code", .i 404), ("message", .s msg)]⟩

/-- Body sent by api.internalServerError. -/
def internalErrorResponse (msg : String) : Response :=
  ⟨500, [("code", .i 500), ("message", .s msg)]⟩

/-- Forbidden body sent when a session id belongs to another account. -/
def forbiddenSessionResponse : Response :=
  ⟨403, [("success", .b false),
         ("message", .s "Cette session de paiement a déjà été utilisée par un autre compte")]⟩

/-- Generic already-processed acknowledgment (no stored subscription state
could be attached). -/
def alreadyProcessedGenericResponse : Response :=
  ⟨200, [("success", .b true), ("already_processed", .b true),
         ("message", .s "Ce paiement a déjà été traité. Votre abonnement est actif.")]⟩

/-- Already-processed acknowledgment carrying the stored subscription
status and period end. -/
def alreadyProcessedFullResponse (st : String) (pe : Int) : Response :=
  ⟨200, [("success", .b true), ("already_processed", .b true),
         ("message", .s "Ce paiement a déjà été traité. Votre abonnement est actif."),
         ("has_subscription", .b true), ("subscription_status", .s st),
         ("current_period_end", .i pe)]⟩

/-- Body sent when the fetched session carries no subscription. -/
def noSubscriptionResponse : Response :=
  ⟨200, [("success", .b false),
         ("message", .s "No subscription found in Stripe session")]⟩

/-- Success body of the session-scoped sync. -/
def syncSuccessResponse (st : String) (pe : Int) : Response :=
  ⟨200, [("success", .b true),
         ("message", .s "Subscription synchronized successfully"),
         ("has_subscription", .b true), ("subscription_status", .s st),
         ("current_period_end", .i pe)]⟩

/-- Success body of the webhook receiver. -/
def webhookSuccessResponse : Response :=
  ⟨200, [("status", .s "success")]⟩

/-- Success body of the cancellation handler. -/
def cancelSuccessResponse : Response :=
  ⟨200, [("status", .s "canceled")]⟩

/-! ### Cancellation handler, api/stripe.go CancelSubscription (lines
237-292).  The provider cancel call in the source is commented out (line
272, with the comment "For now, we'll just update our database"), so the
embedding performs no provider call: the trace records storage operations
only. -/

/-- api.CancelSubscription: resolve the customer, resolve the active
subscription, then update the local row to canceled with canceled-at set to
the current time.  No provider interaction occurs in the source. -/
def cancelSubscription (db : DB) (now : Int) (userID : Nat) : HandlerOutput :=
  let ops1 := [Op.dbRead "stripe_customers"]
  match findCustomerByUserID db userID with
  | none => ⟨notFoundResponse "Customer not found", db, ops1⟩
  | some c =>
    let ops2 := ops1 ++ [Op.dbRead "stripe_subscriptions"]
    match findActiveSubscriptionByCustomerID db c.id with
    | none => ⟨notFoundResponse "Subscription not found", db, ops2⟩
    | some s =>
      let s2 := { s with status := subscriptionStatusCanceled, canceledAt := some now }
      ⟨cancelSuccessResponse, updateSubscription db now s2,
        ops2 ++ [Op.dbWrite "stripe_subscriptions"]⟩

/-! ### Webhook reconciliation handlers, api/stripe.go (lines 295-405) -/

/-- Result of an internal webhook step: either an error (surfaced by the
dispatcher as a 500) or the database after the step, plus the trace. -/
structure WebhookStep where
  result : Except String DB
  ops : List Op
deriving Repr

/-- api.handleCheckoutSessionCompleted (lines 295-357).  The source does
not fetch the subscription from the provider: it builds a mock object whose
id is taken from the payload but whose status is the literal "active",
whose period end is the current time plus one month (passed here as
`nowPlusOneMonth`), and whose single item carries the literal price id
"price_123".  Dereferencing a nil payload pointer is modelled as an
error (a Go panic, recovered by the middleware). -/
def handleCheckoutSessionCompleted (db : DB) (now nowPlusOneMonth : Int)
    (sess : StripeSession) : WebhookStep :=
  match sess.subscription with
  | none => ⟨.error "panic: nil subscription", []⟩
  | some payloadSub =>
    let mockSub : StripeSub :=
      { id := payloadSub.id, status := "active", currentPeriodEnd := nowPlusOneMonth,
        canceledAt := 0, customer := none,
        items := [{ price := some { id := "price_123" } }] }
    match sess.customer with
    | none => ⟨.error "panic: nil customer", []⟩
    | some cref =>
      let ops1 := [Op.dbRead "stripe_customers"]
      match findCustomerByStripeID db cref.id with
      | none => ⟨.error ("customer not found: " ++ cref.id), ops1⟩
      | some dbCustomer =>
        let ops2 := ops1 ++ [Op.dbRead "stripe_subscriptions"]
        match findSubscriptionByStripeID db mockSub.id with
        | some existingSub =>
          let updated := { existingSub with
            status := mockSub.status, currentPeriodEnd := mockSub.currentPeriodEnd }
          ⟨.ok (updateSubscription db now updated),
            ops2 ++ [Op.dbWrite "stripe_subscriptions"]⟩
        | none =>
          match mockSub.items with
          | [] => ⟨.error "panic: index out of range", ops2⟩
          | it :: _ =>
            match it.price with
            | none => ⟨.error "panic: nil price", ops2⟩
            | some p =>
              let created := createSubscription db now dbCustomer.id mockSub.id p.id
                mockSub.status mockSub.currentPeriodEnd
              ⟨.ok created.2, ops2 ++ [Op.dbWrite "stripe_subscriptions"]⟩

/-- api.handleSubscriptionUpdated (lines 360-405), entered for both the
updated and the deleted event types.  An existing row is updated in place:
status and period end are taken from the payload, canceled-at is set only
when the payload carries a positive value, and the row is never deleted.
When no row exists, a new one is created from the payload. -/
def handleSubscriptionUpdated (db : DB) (now : Int) (sub : StripeSub) : WebhookStep :=
  let ops1 := [Op.dbRead "stripe_subscriptions"]
  match findSubscriptionByStripeID db sub.id with
  | some subscription =>
    let updated0 := { subscription with
      status := sub.status, currentPeriodEnd := sub.currentPeriodEnd }
    let updated :=
      if sub.canceledAt > 0 then { updated0 with canceledAt := some sub.canceledAt }
      else updated0
    ⟨.ok (updateSubscription db now updated), ops1 ++ [Op.dbWrite "stripe_subscriptions"]⟩
  | none =>
    match sub.customer with
    | none => ⟨.error "panic: nil customer", ops1⟩
    | some cref =>
      let ops2 := ops1 ++ [Op.dbRead "stripe_customers"]
      match findCustomerByStripeID db cref.id with
      | none => ⟨.error ("customer not found: " ++ cref.id), ops2⟩
      | some dbCustomer =>
        match sub.items with
        | [] => ⟨.error "panic: index out of range", ops2⟩
        | it :: _ =>
          match it.price with
          | none => ⟨.error "panic: nil price", ops2⟩
          | some p =>
            let created := createSubscription db now dbCustomer.id sub.id p.id
              sub.status sub.currentPeriodEnd
            ⟨.ok created.2, ops2 ++ [Op.dbWrite "stripe_subscriptions"]⟩

/-- Inbound webhook after transport decoding: the signature verification
outcome, the event type string, and the payload parsed into the shape the
matching branch expects (none models a payload that fails to parse). -/
structure WebhookEvent where
  sigOk : Bool
  eventType : String
  sessionPayload : Option StripeSession
  subPayload : Option StripeSub
deriving DecidableEq, Repr

/-- api.HandleWebhook (lines 134-190): verify the signature, dispatch on
the event type, and acknowledge with a 200 success body.  An event type
other than the three handled ones falls through the switch directly to the
success acknowledgment. -/
def handleWebhook (db : DB) (now nowPlusOneMonth : Int) (ev : WebhookEvent) : HandlerOutput :=
  if !ev.sigOk then ⟨badRequestResponse "Failed to verify signature", db, []⟩
  else if ev.eventType == "checkout.session.completed" then
    match ev.sessionPayload with
    | none => ⟨badRequestResponse "Failed to parse checkout session", db, []⟩
    | some sess =>
      let step := handleCheckoutSessionCompleted db now nowPlusOneMonth sess
      match step.result with
      | .error _ => ⟨internalErrorResponse "Failed to handle checkout session", db, step.ops⟩
      | .ok db2 => ⟨webhookSuccessResponse, db2, step.ops⟩
  else if ev.eventType == "customer.subscription.updated" ||
      ev.eventType == "customer.subscription.deleted" then
    match ev.subPayload with
    | none => ⟨badRequestResponse "Failed to parse subscription", db, []⟩
    | some sub =>
      let step := handleSubscriptionUpdated db now sub
      match step.result with
      | .error _ => ⟨internalErrorResponse "Failed to handle subscription", db, step.ops⟩
      | .ok db2 => ⟨webhookSuccessResponse, db2, step.ops⟩
  else ⟨webhookSuccessResponse, db, []⟩

/-! ### Session-scoped sync, the ledger-aware api.SyncSubscription.  The
embedding covers the branch taken when a session id is supplied
(req.SessionID nonempty); an empty session id delegates to the separate
customer-scoped sync, which no claim here depends on. -/

/-- The fallback price id hardcoded in the sync handlers, used when the
fetched subscription carries no usable item price. -/
def defaultPriceID : String := "price_1PSQokJKyP34gH73kOw1DhX1"

/-- Price-id tie-break of the sync handlers: the price id of the first
item when the item list is nonempty and its first item has a price object,
else the hardcoded default. -/
def derivePriceID (items : List StripeItem) : String :=
  match items with
  | it :: _ =>
    match it.price with
    | some p => p.id
    | none => defaultPriceID
  | [] => defaultPriceID

/-- Inputs of one session-scoped sync invocation: the request and ambient
values, plus the provider and ledger-storage behaviour for this request.
`fetchSession` and `fetchCustomer` are the values the provider returns
(none models a provider error), `ledgerLookupFails` models a storage error
on the Event Ledger lookup, and `ledgerWriteFails` a storage error on the
final Event Ledger write. -/
structure SyncInput where
  sessionID : String
  userID : Nat
  now : Int
  ledgerLookupFails : Bool
  fetchSession : Option StripeSession
  fetchCustomer : Option StripeCustomerData
  ledgerWriteFails : Bool
deriving DecidableEq, Repr

/-- The Event Ledger consultation (sync lines 53-77): on a storage error
the handler continues with no record and does not schedule a ledger write
(newlyCreatedSession stays false); when no row exists it continues and
schedules the write; when a row exists it is returned.  The Bool is
newlyCreatedSession. -/
def ledgerLookup (db : DB) (i : SyncInput) : Option ProcessedSession × Bool :=
  if i.ledgerLookupFails then (none, false)
  else
    match findProcessedSessionBySessionID db i.sessionID with
    | some ps => (some ps, false)
    | none => (none, true)

/-- Short-circuit response for an already-processed session redeemed by the
same user (sync lines 96-135): attach the stored active subscription of the
requesting customer when one is found, else answer with the generic
already-processed acknowledgment. -/
def shortCircuitResponse (db : DB) (userID : Nat) : Response :=
  match findCustomerByUserID db userID with
  | none => alreadyProcessedGenericResponse
  | some c =>
    match findActiveSubscriptionByCustomerID db c.id with
    | none => alreadyProcessedGenericResponse
    | some s => alreadyProcessedFullResponse s.status s.currentPeriodEnd

/-- Outcome of the sync before the final ledger write: either an early
return (response, database so far, trace), or a completed merge carrying
the database, the newlyCreatedSession flag, and the status and period end
that the success response reports. -/
inductive SyncCoreResult where
  | early : Response → DB → List Op → SyncCoreResult
  | merged : DB → Bool → String → Int → List Op → SyncCoreResult
deriving DecidableEq, Repr

/-- Whether the sync reached a completed Customer/Subscription merge. -/
def SyncCoreResult.isMerged : SyncCoreResult → Bool
  | .merged _ _ _ _ _ => true
  | _ => false

/-- The create-or-update merge of the sync (lines 262-332): status, period
end and price id are taken from the fetched subscription; an existing row
for the provider subscription id is updated, otherwise a row is created for
the resolved customer. -/
def mergePhase (db : DB) (i : SyncInput) (ssub : StripeSub) (dbCustomer : Customer)
    (newly : Bool) (ops : List Op) : SyncCoreResult :=
  let subscriptionStatus := ssub.status
  let currentPeriodEnd := ssub.currentPeriodEnd
  let priceID := derivePriceID ssub.items
  let ops2 := ops ++ [Op.dbRead "stripe_subscriptions"]
  match findSubscriptionByStripeID db ssub.id with
  | some dbSubscription =>
    let updated := { dbSubscription with
      status := subscriptionStatus, currentPeriodEnd := currentPeriodEnd, priceID := priceID }
    .merged (updateSubscription db i.now updated) newly subscriptionStatus currentPeriodEnd
      (ops2 ++ [Op.dbWrite "stripe_subscriptions"])
  | none =>
    let created := createSubscription db i.now dbCustomer.id ssub.id priceID
      subscriptionStatus currentPeriodEnd
    .merged created.2 newly subscriptionStatus currentPeriodEnd
      (ops2 ++ [Op.dbWrite "stripe_subscriptions"])

/-- Body of the session-scoped sync up to (and excluding) the final Event
Ledger write, following the source line by line: consult the ledger (53-77),
reject or short-circuit when a record exists (80-136), fetch the session
from the provider (138-153), report when it carries no subscription
(175-186), resolve the customer, creating it from provider data when absent
(195-260), and run the create-or-update merge (262-332). -/
def syncCore (db : DB) (i : SyncInput) : SyncCoreResult :=
  let opsA := [Op.dbRead "stripe_processed_sessions"]
  match ledgerLookup db i with
  | (some ps, _) =>
    if ps.userID != i.userID then
      .early forbiddenSessionResponse db opsA
    else
      .early (shortCircuitResponse db i.userID) db
        (opsA ++ [Op.dbRead "stripe_customers", Op.dbRead "stripe_subscriptions"])
  | (none, newly) =>
    let opsB := opsA ++ [Op.providerCall "checkout.session.get"]
    match i.fetchSession with
    | none => .early (internalErrorResponse "Failed to retrieve Stripe session") db opsB
    | some sess =>
      match sess.subscription with
      | none => .early noSubscriptionResponse db opsB
      | some ssub =>
        let opsC := opsB ++ [Op.dbRead "stripe_customers"]
        match sess.customer with
        | none => .early (internalErrorResponse "panic: nil customer") db opsC
        | some _ =>
          match findCustomerByUserID db i.userID with
          | some dbCustomer => mergePhase db i ssub dbCustomer newly opsC
          | none =>
            let opsD := opsC ++ [Op.providerCall "customer.get"]
            match i.fetchCustomer with
            | none =>
              .early (internalErrorResponse "Failed to get customer details from Stripe") db opsD
            | some scust =>
              let made := createCustomer db i.now i.userID scust.id scust.email scust.name
              mergePhase made.2 i ssub made.1 newly (opsD ++ [Op.dbWrite "stripe_customers"])

/-- The final Event Ledger write (sync lines 334-346): performed only when
the session was seen for the first time; a write failure is logged and
otherwise ignored. -/
def recordLedger (db : DB) (i : SyncInput) (newly : Bool) : DB × List Op :=
  if newly && i.sessionID != "" then
    if i.ledgerWriteFails then (db, [Op.dbWrite "stripe_processed_sessions"])
    else (createProcessedSession db i.now i.sessionID i.userID,
      [Op.dbWrite "stripe_processed_sessions"])
  else (db, [])

/-- api.SyncSubscription for a supplied session id: the core, then the
ledger write, then the success response built from the merged status and
period end. -/
def syncSubscription (db : DB) (i : SyncInput) : HandlerOutput :=
  match syncCore db i with
  | .early resp db2 ops => ⟨resp, db2, ops⟩
  | .merged db2 newly st pe ops =>
    let fin := recordLedger db2 i newly
    ⟨syncSuccessResponse st pe, fin.1, ops ++ fin.2⟩

/-! ### Concrete inputs used by the claim theorems -/

/-- Database holding one customer of user 4 and one active subscription,
used to exercise the cancellation handler. -/
def c1db : DB :=
  { customers := [⟨40, 4, "cus_4", "u4 at example.com", "User Four", 0, 0⟩]
    subscriptions := [⟨41, 40, "sub_4", "active", "price_4", 500, none, 0, 0⟩]
    processedSessions := []
    nextID := 400 }

/-- Database holding one customer of user 7 and nothing else. -/
def c3db : DB :=
  { customers := [⟨10, 7, "cus_t", "e7", "n7", 0, 0⟩]
    subscriptions := []
    processedSessions := []
    nextID := 100 }

/-- Checkout session whose subscription is in the trialing status. -/
def c3sess : StripeSession :=
  { customer := some ⟨"cus_t"⟩
    subscription := some ⟨"sub_t", "trialing", 555, 0, none, [⟨some ⟨"price_T"⟩⟩]⟩ }

/-- Session-scoped sync request for the trialing session by user 7. -/
def c3in : SyncInput :=
  { sessionID := "cs_t", userID := 7, now := 1000, ledgerLookupFails := false,
    fetchSession := some c3sess, fetchCustomer := none, ledgerWriteFails := false }

/-- Database holding one customer of user 5 and nothing else. -/
def c5db : DB :=
  { customers := [⟨30, 5, "cus_5", "e5", "n5", 0, 0⟩]
    subscriptions := []
    processedSessions := []
    nextID := 300 }

/-- Webhook checkout session whose payload subscription is trialing with
price price_X and period end 777. -/
def c5sess : StripeSession :=
  { customer := some ⟨"cus_5"⟩
    subscription := some ⟨"sub_5", "trialing", 777, 0, none, [⟨some ⟨"price_X"⟩⟩]⟩ }

/-- Database holding one customer of user 9 and nothing else. -/
def c9db : DB :=
  { customers := [⟨20, 9, "cus_e", "e9", "n9", 0, 0⟩]
    subscriptions := []
    processedSessions := []
    nextID := 200 }

/-- Checkout session whose subscription item carries an empty price id. -/
def c9sess : StripeSession :=
  { customer := some ⟨"cus_e"⟩
    subscription := some ⟨"sub_e", "active", 600, 0, none, [⟨some ⟨""⟩⟩]⟩ }

/-- Session-scoped sync request for the empty-price-id session by user 9. -/
def c9in : SyncInput :=
  { sessionID := "cs_e", userID := 9, now := 1100, ledgerLookupFails := false,
    fetchSession := some c9sess, fetchCustomer := none, ledgerWriteFails := false }

/-! ### Claim theorems -/

/-- C1 (code bug): on a cancellation request with an active subscription
row present, the handler reports success and mutates the local row to
canceled with canceled-at stamped, while its operation trace contains no
provider call at all: the provider cancel invocation in the source is
commented out, so the local mutation is unconditional rather than gated on
provider confirmation. -/
theorem c1_cancel_without_provider :
  (cancelSubscription c1db 2000 4).resp = cancelSuccessResponse ∧
  ((cancelSubscription c1db 2000 4).db.subscriptions.map
      (fun s => (s.status, s.canceledAt))) = [("canceled", some (2000 : Int))] ∧
  (cancelSubscription c1db 2000 4).ops.all (fun o => !o.isProviderCall) = true := by
  decide

/-- C2 (counterexample): the claim that customers are storage-unique on
user id and provider customer id and subscriptions on provider subscription
id is false: the migrations declare no UNIQUE constraint and no unique
index on those columns, so a second insert of the same user id (or the same
provider subscription id) succeeds at the storage layer. -/
theorem c2_schema_counterexample :
  insertOk stripeCustomersTable schemaIndexes
      [[("id", "row1"), ("user_id", "u1"), ("stripe_id", "cus_1")]]
      [("id", "row2"), ("user_id", "u1"), ("stripe_id", "cus_2")] = true ∧
  insertOk stripeSubscriptionsTable schemaIndexes
      [[("id", "row3"), ("stripe_id", "sub_1")]]
      [("id", "row4"), ("stripe_id", "sub_1")] = true ∧
  enforcedUnique stripeCustomersTable schemaIndexes "user_id" = false ∧
  enforcedUnique stripeCustomersTable schemaIndexes "stripe_id" = false ∧
  enforcedUnique stripeSubscriptionsTable schemaIndexes "stripe_id" = false := by
  decide

/-- C2 (amended): of the uniqueness guarantees named by the spec, the
durable schema enforces only the processed-sessions one: session_id carries
a UNIQUE constraint and a duplicate insert fails, while the customers and
subscriptions key columns have only non-unique indexes and a duplicate
insert succeeds. -/
theorem c2_schema_amended :
  enforcedUnique stripeProcessedSessionsTable schemaIndexes "session_id" = true ∧
  enforcedUnique stripeCustomersTable schemaIndexes "user_id" = false ∧
  enforcedUnique stripeCustomersTable schemaIndexes "stripe_id" = false ∧
  enforcedUnique stripeSubscriptionsTable schemaIndexes "stripe_id" = false ∧
  insertOk stripeProcessedSessionsTable schemaIndexes
      [[("id", "row5"), ("session_id", "cs_1"), ("user_id", "u1")]]
      [("id", "row6"), ("session_id", "cs_1"), ("user_id", "u2")] = false ∧
  insertOk stripeCustomersTable schemaIndexes
      [[("id", "row7"), ("user_id", "u7"), ("stripe_id", "cus_7")]]
      [("id", "row8"), ("user_id", "u7"), ("stripe_id", "cus_7")] = true := by
  decide

/-- C3 (counterexample): syncing the same session id twice by the same
user does not yield the same subscription result when the merged
subscription is not active: the first call reports subscription status
trialing, while the second call short-circuits to the stored active
subscription, finds none, and answers with a body that carries no
subscription status at all. -/
theorem c3_sync_twice_counterexample :
  ((syncSubscription c3db c3in).resp.body.lookup "subscription_status"
      = some (JVal.s "trialing")) ∧
  ((syncSubscription (syncSubscription c3db c3in).db c3in).resp.body.lookup
      "subscription_status" = none) ∧
  (syncSubscription (syncSubscription c3db c3in).db c3in).resp
      ≠ (syncSubscription c3db c3in).resp := by
  decide

/-- C5 (code bug): for a checkout.session.completed event whose payload
subscription is trialing with price price_X and period end 777, the handler
stores a row with status active, price price_123 and the ambient one-month
period end: the stored fields come from a hardcoded mock object, not from
the payload subscription data nor from any provider fetch. -/
theorem c5_checkout_webhook_ignores_payload :
  ((handleCheckoutSessionCompleted c5db 1000 999999 c5sess).result.toOption.map
      (fun d => d.subscriptions.map (fun s => (s.status, s.priceID, s.currentPeriodEnd))))
    = some [("active", "price_123", (999999 : Int))] ∧
  (c5sess.subscription.map (fun s => (s.status, derivePriceID s.items, s.currentPeriodEnd)))
    = some ("trialing", "price_X", (777 : Int)) := by
  decide

/-- C9 (counterexample): a merge is not prevented from storing an empty
price id: when the first subscribed item carries a price object whose id is
the empty string, the tie-break keeps the empty string and the stored row
has an empty price id, so the field is not never-empty as claimed. -/
theorem c9_empty_price_counterexample :
  derivePriceID [⟨some ⟨""⟩⟩] = "" ∧
  (syncSubscription c9db c9in).db.subscriptions.map (fun s => s.priceID) = [""] := by
  decide

/-- Auxiliary: a session-scoped sync whose ledger lookup finds a record
owned by a different user returns the constant forbidden output after the
single ledger read, leaving the database untouched. -/
theorem sync_foreign_session_shape (db : DB) (i : SyncInput) (ps : ProcessedSession)
    (hf : i.ledgerLookupFails = false)
    (hl : findProcessedSessionBySessionID db i.sessionID = some ps)
    (hne : ps.userID ≠ i.userID) :
    syncSubscription db i =
      ⟨forbiddenSessionResponse, db, [Op.dbRead "stripe_processed_sessions"]⟩ := by
  simp [syncSubscription, syncCore, ledgerLookup, hf, hl, hne]

/-- C4 (confirmed): when the Event Ledger records the session for a user
other than the requester, the sync answers with the fixed 403 forbidden
body, mutates nothing, and the response is the same constant for every
database, request and recorded owner, so nothing in it can identify the
account that originally redeemed the session. -/
theorem c4_foreign_session_isolation :
  ∀ (db : DB) (i : SyncInput) (ps : ProcessedSession),
    i.ledgerLookupFails = false →
    findProcessedSessionBySessionID db i.sessionID = some ps →
    ps.userID ≠ i.userID →
    (syncSubscription db i).resp = forbiddenSessionResponse ∧
    (syncSubscription db i).db = db ∧
    (∀ (db2 : DB) (i2 : SyncInput) (ps2 : ProcessedSession),
      i2.ledgerLookupFails = false →
      findProcessedSessionBySessionID db2 i2.sessionID = some ps2 →
      ps2.userID ≠ i2.userID →
      (syncSubscription db2 i2).resp = (syncSubscription db i).resp) := by
  intro db i ps hf hl hne
  have h := sync_foreign_session_shape db i ps hf hl hne
  refine ⟨by rw [h], by rw [h], ?_⟩
  intro db2 i2 ps2 hf2 hl2 hne2
  rw [h, sync_foreign_session_shape db2 i2 ps2 hf2 hl2 hne2]

/-- C8 (confirmed): a first-time session-scoped sync whose fetched session
carries no subscription answers with the no-subscription body, leaves the
database exactly as it was, and performs no storage write. -/
theorem c8_no_subscription_no_writes :
  ∀ (db : DB) (i : SyncInput) (sess : StripeSession),
    i.ledgerLookupFails = false →
    findProcessedSessionBySessionID db i.sessionID = none →
    i.fetchSession = some sess →
    sess.subscription = none →
    (syncSubscription db i).resp = noSubscriptionResponse ∧
    (syncSubscription db i).db = db ∧
    (syncSubscription db i).ops.all (fun o => !o.isWrite) = true := by
  intro db i sess hf hl hs hsub
  simp [syncSubscription, syncCore, ledgerLookup, hf, hl, hs, hsub, Op.isWrite]

/-- C10 (confirmed): a webhook whose signature verifies but whose event
type is none of the three handled ones is acknowledged with the 200 success
body, the database is returned unchanged, and the operation trace is empty:
no customer, subscription or ledger state is read or written. -/
theorem c10_unhandled_event_no_state_access :
  ∀ (db : DB) (now npm : Int) (ev : WebhookEvent),
    ev.sigOk = true →
    ev.eventType ≠ "checkout.session.completed" →
    ev.eventType ≠ "customer.subscription.updated" →
    ev.eventType ≠ "customer.subscription.deleted" →
    handleWebhook db now npm ev = ⟨webhookSuccessResponse, db, []⟩ := by
  intro db now npm ev hsig h1 h2 h3
  simp [handleWebhook, hsig, h1, h2, h3]

/-- Database whose ledger records session cs_a as redeemed by user 1. -/
def c4db : DB :=
  { customers := [], subscriptions := [],
    processedSessions := [⟨15, "cs_a", 1, 0⟩], nextID := 70 }

/-- Sync request for session cs_a issued by user 2. -/
def c4in : SyncInput :=
  { sessionID := "cs_a", userID := 2, now := 3000, ledgerLookupFails := false,
    fetchSession := none, fetchCustomer := none, ledgerWriteFails := false }

/-- Witness for C4 at a concrete foreign-session request. -/
theorem c4_witness :
  (syncSubscription c4db c4in).resp = forbiddenSessionResponse ∧
  (syncSubscription c4db c4in).db = c4db := by
  have h := c4_foreign_session_isolation c4db c4in ⟨15, "cs_a", 1, 0⟩
    (by decide) (by decide) (by decide)
  exact ⟨h.1, h.2.1⟩

/-- Database holding one customer of user 6 and nothing else. -/
def c8db : DB :=
  { customers := [⟨16, 6, "cus_8", "e6", "n6", 0, 0⟩], subscriptions := [],
    processedSessions := [], nextID := 80 }

/-- Fetched session that carries no subscription. -/
def c8sess : StripeSession := ⟨some ⟨"cus_8"⟩, none⟩

/-- First-time sync request whose fetched session has no subscription. -/
def c8in : SyncInput :=
  { sessionID := "cs_8", userID := 6, now := 3100, ledgerLookupFails := false,
    fetchSession := some c8sess, fetchCustomer := none, ledgerWriteFails := false }

/-- Witness for C8 at a concrete subscription-free session. -/
theorem c8_witness :
  (syncSubscription c8db c8in).resp = noSubscriptionResponse ∧
  (syncSubscription c8db c8in).db = c8db ∧
  (syncSubscription c8db c8in).ops.all (fun o => !o.isWrite) = true :=
  c8_no_subscription_no_writes c8db c8in c8sess
    (by decide) (by decide) (by decide) (by decide)

/-- Verified webhook carrying an event type the dispatcher does not
handle. -/
def c10ev : WebhookEvent := ⟨true, "invoice.paid", none, none⟩

/-- C6 (confirmed): a customer.subscription.deleted webhook whose payload
matches an existing subscription row updates that row in place: the status
becomes the payload status (canceled) and canceled-at is set from the
payload when it carries one; the subscriptions table keeps its length (no
row is deleted) and the customers table is unchanged. -/
theorem c6_deleted_event_updates_in_place :
  ∀ (db : DB) (now npm : Int) (ev : WebhookEvent) (p : StripeSub) (s : Subscription),
    ev.sigOk = true →
    ev.eventType = "customer.subscription.deleted" →
    ev.subPayload = some p →
    findSubscriptionByStripeID db p.id = some s →
    p.status = "canceled" →
    p.canceledAt > 0 →
    (handleWebhook db now npm ev).resp = webhookSuccessResponse ∧
    (handleWebhook db now npm ev).db =
      updateSubscription db now
        { s with status := "canceled", currentPeriodEnd := p.currentPeriodEnd,
                 canceledAt := some p.canceledAt } ∧
    (handleWebhook db now npm ev).db.customers = db.customers ∧
    (handleWebhook db now npm ev).db.subscriptions.length = db.subscriptions.length := by
  intro db now npm ev p s hsig ht hp hfind hstat hca
  have hw : handleWebhook db now npm ev =
      ⟨webhookSuccessResponse,
       updateSubscription db now
         { s with status := "canceled", currentPeriodEnd := p.currentPeriodEnd,
                  canceledAt := some p.canceledAt },
       [Op.dbRead "stripe_subscriptions", Op.dbWrite "stripe_subscriptions"]⟩ := by
    simp [handleWebhook, hsig, ht, hp, handleSubscriptionUpdated, hfind, hca, hstat]
  refine ⟨by rw [hw], by rw [hw], by rw [hw]; rfl, by rw [hw]; simp [updateSubscription]⟩

/-- Database used by the C6 witness: one customer and one active
subscription row for provider subscription sub_6. -/
def c6db : DB :=
  { customers := [⟨17, 12, "cus_6", "e12", "n12", 0, 0⟩]
    subscriptions := [⟨18, 17, "sub_6", "active", "price_6", 950, none, 0, 0⟩]
    processedSessions := []
    nextID := 90 }

/-- Deleted-subscription webhook payload for sub_6. -/
def c6sub : StripeSub := ⟨"sub_6", "canceled", 950, 940, some ⟨"cus_6"⟩, [⟨some ⟨"price_6"⟩⟩]⟩

/-- Verified customer.subscription.deleted event carrying the sub_6
payload. -/
def c6ev : WebhookEvent := ⟨true, "customer.subscription.deleted", none, some c6sub⟩

/-- Witness for C6 at the concrete deleted event. -/
theorem c6_witness :
  (handleWebhook c6db 4000 0 c6ev).resp = webhookSuccessResponse ∧
  (handleWebhook c6db 4000 0 c6ev).db =
    updateSubscription c6db 4000
      { (⟨18, 17, "sub_6", "active", "price_6", 950, none, 0, 0⟩ : Subscription) with
        status := "canceled", currentPeriodEnd := c6sub.currentPeriodEnd,
        canceledAt := some c6sub.canceledAt } ∧
  (handleWebhook c6db 4000 0 c6ev).db.customers = c6db.customers ∧
  (handleWebhook c6db 4000 0 c6ev).db.subscriptions.length = c6db.subscriptions.length :=
  c6_deleted_event_updates_in_place c6db 4000 0 c6ev c6sub
    ⟨18, 17, "sub_6", "active", "price_6", 950, none, 0, 0⟩
    (by decide) (by decide) (by decide) (by decide) (by decide) (by decide)

/-- Auxiliary: the sync core never consults the ledger-write outcome, so
changing it leaves the core result untouched. -/
theorem syncCore_writeflag_independent (db : DB) (i : SyncInput) (b : Bool) :
    syncCore db { i with ledgerWriteFails := b } = syncCore db i := by
  cases i
  rfl

/-- Auxiliary: the final ledger write never touches the customers table. -/
theorem recordLedger_customers (db : DB) (i : SyncInput) (newly : Bool) :
    ((recordLedger db i newly).1).customers = db.customers := by
  unfold recordLedger
  split
  · split <;> rfl
  · rfl

/-- Auxiliary: the final ledger write never touches the subscriptions
table. -/
theorem recordLedger_subscriptions (db : DB) (i : SyncInput) (newly : Bool) :
    ((recordLedger db i newly).1).subscriptions = db.subscriptions := by
  unfold recordLedger
  split
  · split <;> rfl
  · rfl

/-- C7 (confirmed): for a first-time sync that reaches a completed
Customer/Subscription merge, failing the subsequent Event Ledger write
changes nothing the client or the merged state can observe: the response is
the same as with a successful write (and is the success body), and the
customers and subscriptions tables are identical, so no written state is
rolled back. -/
theorem c7_ledger_write_failure_harmless :
  ∀ (db : DB) (i : SyncInput),
    (ledgerLookup db i).2 = true →
    (syncCore db i).isMerged = true →
    (syncSubscription db { i with ledgerWriteFails := true }).resp
        = (syncSubscription db { i with ledgerWriteFails := false }).resp ∧
    (syncSubscription db { i with ledgerWriteFails := true }).db.customers
        = (syncSubscription db { i with ledgerWriteFails := false }).db.customers ∧
    (syncSubscription db { i with ledgerWriteFails := true }).db.subscriptions
        = (syncSubscription db { i with ledgerWriteFails := false }).db.subscriptions ∧
    (∃ st pe, (syncSubscription db { i with ledgerWriteFails := true }).resp
        = syncSuccessResponse st pe) := by
  intro db i _hfirst hm
  cases hc : syncCore db i with
  | early resp db2 ops =>
    rw [hc] at hm
    simp [SyncCoreResult.isMerged] at hm
  | merged db2 newly st pe ops =>
    have key : ∀ b : Bool, syncSubscription db { i with ledgerWriteFails := b } =
        ⟨syncSuccessResponse st pe,
         (recordLedger db2 { i with ledgerWriteFails := b } newly).1,
         ops ++ (recordLedger db2 { i with ledgerWriteFails := b } newly).2⟩ := by
      intro b
      simp only [syncSubscription, syncCore_writeflag_independent, hc]
    refine ⟨?_, ?_, ?_, st, pe, by rw [key true]⟩
    · rw [key true, key false]
    · rw [key true, key false]
      simp only [recordLedger_customers]
    · rw [key true, key false]
      simp only [recordLedger_subscriptions]

/-- Database holding one customer of user 13 and nothing else, used by the
C7 witness. -/
def c7db : DB :=
  { customers := [⟨19, 13, "cus_7", "e13", "n13", 0, 0⟩], subscriptions := [],
    processedSessions := [], nextID := 95 }

/-- Fetched session with an active subscription, used by the C7 witness. -/
def c7sess : StripeSession :=
  ⟨some ⟨"cus_7"⟩, some ⟨"sub_7", "active", 880, 0, none, [⟨some ⟨"price_7"⟩⟩]⟩⟩

/-- First-time sync request of user 13, used by the C7 witness. -/
def c7in : SyncInput :=
  { sessionID := "cs_7", userID := 13, now := 4100, ledgerLookupFails := false,
    fetchSession := some c7sess, fetchCustomer := none, ledgerWriteFails := false }

/-- Witness for C7 at a concrete first-time sync whose merge completes. -/
theorem c7_witness :
  (syncSubscription c7db { c7in with ledgerWriteFails := true }).resp
      = (syncSubscription c7db { c7in with ledgerWriteFails := false }).resp ∧
  (syncSubscription c7db { c7in with ledgerWriteFails := true }).db.customers
      = (syncSubscription c7db { c7in with ledgerWriteFails := false }).db.customers ∧
  (syncSubscription c7db { c7in with ledgerWriteFails := true }).db.subscriptions
      = (syncSubscription c7db { c7in with ledgerWriteFails := false }).db.subscriptions ∧
  (∃ st pe, (syncSubscription c7db { c7in with ledgerWriteFails := true }).resp
      = syncSuccessResponse st pe) :=
  c7_ledger_write_failure_harmless c7db c7in (by decide) (by decide)

/-- Auxiliary: a first-time session-scoped sync against a database holding
exactly the requesting customer and nothing else, whose fetched session
carries a subscription, creates the subscription row and the ledger entry
and answers with the success body built from the fetched status and period
end. -/
theorem sync_fresh_run (db : DB) (i : SyncInput) (c : Customer) (sess : StripeSession)
    (cr : StripeCustomerRef) (ssub : StripeSub)
    (hcs : db.customers = [c]) (hsubs : db.subscriptions = [])
    (hps : db.processedSessions = [])
    (hu : c.userID = i.userID) (hsid : i.sessionID ≠ "")
    (hlf : i.ledgerLookupFails = false) (hwf : i.ledgerWriteFails = false)
    (hf : i.fetchSession = some sess) (hcr : sess.customer = some cr)
    (hss : sess.subscription = some ssub) :
    syncSubscription db i =
      ⟨syncSuccessResponse ssub.status ssub.currentPeriodEnd,
       { customers := [c],
         subscriptions := [⟨db.nextID, c.id, ssub.id, ssub.status,
            derivePriceID ssub.items, ssub.currentPeriodEnd, none, i.now, i.now⟩],
         processedSessions := [⟨db.nextID + 1, i.sessionID, i.userID, i.now⟩],
         nextID := db.nextID + 1 + 1 },
       [Op.dbRead "stripe_processed_sessions", Op.providerCall "checkout.session.get",
        Op.dbRead "stripe_customers", Op.dbRead "stripe_subscriptions",
        Op.dbWrite "stripe_subscriptions", Op.dbWrite "stripe_processed_sessions"]⟩ := by
  simp [syncSubscription, syncCore, ledgerLookup, hlf, findProcessedSessionBySessionID,
    hps, hf, hss, hcr, findCustomerByUserID, hcs, List.find?, hu, mergePhase,
    findSubscriptionByStripeID, hsubs, createSubscription, recordLedger, hsid, hwf,
    createProcessedSession]

/-- Auxiliary: a sync whose ledger lookup finds a record owned by the
requesting user returns the short-circuit response after the three reads,
leaving the database untouched. -/
theorem sync_same_user_shape (db : DB) (i : SyncInput) (ps : ProcessedSession)
    (hlf : i.ledgerLookupFails = false)
    (hl : findProcessedSessionBySessionID db i.sessionID = some ps)
    (heq : ps.userID = i.userID) :
    syncSubscription db i =
      ⟨shortCircuitResponse db i.userID, db,
       [Op.dbRead "stripe_processed_sessions", Op.dbRead "stripe_customers",
        Op.dbRead "stripe_subscriptions"]⟩ := by
  simp [syncSubscription, syncCore, ledgerLookup, hlf, hl, heq]

/-- Auxiliary: the short-circuit response is always derived from the
stored state of the requesting customer: the stored active subscription
status and period end when the customer and an active row exist, else the
generic acknowledgment. -/
theorem shortCircuit_resp_cases (db : DB) (u : Nat) :
    (∃ c s, findCustomerByUserID db u = some c ∧
        findActiveSubscriptionByCustomerID db c.id = some s ∧
        shortCircuitResponse db u = alreadyProcessedFullResponse s.status s.currentPeriodEnd) ∨
      shortCircuitResponse db u = alreadyProcessedGenericResponse := by
  rcases hc : findCustomerByUserID db u with _ | c
  · right
    simp [shortCircuitResponse, hc]
  · rcases hs : findActiveSubscriptionByCustomerID db c.id with _ | s
    · right
      simp [shortCircuitResponse, hc, hs]
    · left
      exact ⟨c, s, rfl, hs, by simp [shortCircuitResponse, hc, hs]⟩

/-- Auxiliary: whatever branch the create-or-update merge takes, it
returns a completed merge carrying the `newly` flag it was given and a
database whose processed-sessions table is untouched. -/
theorem mergePhase_shape (db : DB) (i : SyncInput) (ssub : StripeSub) (c : Customer)
    (newly : Bool) (ops : List Op) :
    ∃ db2 ops2, mergePhase db i ssub c newly ops
        = .merged db2 newly ssub.status ssub.currentPeriodEnd ops2
      ∧ db2.processedSessions = db.processedSessions := by
  unfold mergePhase
  rcases hf : findSubscriptionByStripeID db ssub.id with _ | d
  · exact ⟨_, _, rfl, rfl⟩
  · exact ⟨_, _, rfl, rfl⟩

/-- Auxiliary: a sync core that completed its merge carries the
newly-created flag computed by the ledger lookup, and its database keeps
the processed-sessions table of the input database (the merge itself never
writes the ledger). -/
theorem syncCore_merged_newly (db : DB) (i : SyncInput) (db2 : DB) (nc : Bool)
    (st : String) (pe : Int) (ops : List Op)
    (h : syncCore db i = .merged db2 nc st pe ops) :
    nc = (ledgerLookup db i).2 ∧ db2.processedSessions = db.processedSessions := by
  unfold syncCore at h
  rcases hlk : ledgerLookup db i with ⟨o, newly⟩
  rw [hlk] at h
  rcases o with _ | ps
  · dsimp only at h
    rcases hfs : i.fetchSession with _ | sess <;> rw [hfs] at h <;> dsimp only at h
    · exact absurd h (by simp)
    · rcases hsub : sess.subscription with _ | ssub <;> rw [hsub] at h <;> dsimp only at h
      · exact absurd h (by simp)
      · rcases hcr : sess.customer with _ | cr <;> rw [hcr] at h <;> dsimp only at h
        · exact absurd h (by simp)
        · rcases hfc : findCustomerByUserID db i.userID with _ | c <;>
            rw [hfc] at h <;> dsimp only at h
          · rcases hfcu : i.fetchCustomer with _ | scust <;> rw [hfcu] at h <;> dsimp only at h
            · exact absurd h (by simp)
            · obtain ⟨d2, o2, he, hp⟩ := mergePhase_shape
                (createCustomer db i.now i.userID scust.id scust.email scust.name).2
                i ssub (createCustomer db i.now i.userID scust.id scust.email scust.name).1
                newly (([Op.dbRead "stripe_processed_sessions"]
                  ++ [Op.providerCall "checkout.session.get"]
                  ++ [Op.dbRead "stripe_customers"]
                  ++ [Op.providerCall "customer.get"]) ++ [Op.dbWrite "stripe_customers"])
              rw [he] at h
              injection h with h1 h2 _ _ _
              refine ⟨h2.symm, ?_⟩
              rw [← h1, hp]
              rfl
          · obtain ⟨d2, o2, he, hp⟩ := mergePhase_shape db i ssub c newly
              ([Op.dbRead "stripe_processed_sessions"]
                ++ [Op.providerCall "checkout.session.get"]
                ++ [Op.dbRead "stripe_customers"])
            rw [he] at h
            injection h with h1 h2 _ _ _
            exact ⟨h2.symm, by rw [← h1, hp]⟩
  · dsimp only at h
    split at h <;> exact absurd h (by simp)

/-- Auxiliary: searching an appended list when the first part has no match
searches the second part. -/
theorem find_append_of_none {α : Type} (p : α → Bool) (l1 l2 : List α)
    (h : l1.find? p = none) : (l1 ++ l2).find? p = l2.find? p := by
  induction l1 with
  | nil => simp
  | cons a t ih =>
    rw [List.cons_append]
    simp only [List.find?] at h ⊢
    cases hp : p a
    · rw [hp] at h
      simp only at h
      exact ih h
    · rw [hp] at h
      simp at h

/-- Auxiliary: a list with no match filters to the empty list. -/
theorem filter_of_find_none {α : Type} (p : α → Bool) (l : List α)
    (h : l.find? p = none) : l.filter p = [] := by
  rw [List.filter_eq_nil_iff]
  intro a ha
  have := List.find?_eq_none.mp h a ha
  simpa using this

/-- C3 (amended): when the Event Ledger already records the session id for
the requesting user, the sync short-circuits: it mutates nothing, performs
no provider call, and answers from stored state (the stored active
subscription of the requesting customer when one exists, else the generic
already-processed acknowledgment).  A first-time sync that completes its
merge writes exactly one Event Ledger entry for the session id, and the
immediate second call by the same user mutates nothing, performs no
provider call, and again answers from the stored state.  In particular,
for a first-time sync by a customer with no prior subscription rows whose
fetched subscription is active, both calls report the same subscription
status and period end. -/
theorem c3_short_circuit_and_single_ledger_entry :
  (∀ (db : DB) (i : SyncInput) (ps : ProcessedSession),
      i.ledgerLookupFails = false →
      findProcessedSessionBySessionID db i.sessionID = some ps →
      ps.userID = i.userID →
      (syncSubscription db i).db = db ∧
      (syncSubscription db i).ops.all (fun o => !o.isProviderCall) = true ∧
      ((∃ c s, findCustomerByUserID db i.userID = some c ∧
          findActiveSubscriptionByCustomerID db c.id = some s ∧
          (syncSubscription db i).resp
            = alreadyProcessedFullResponse s.status s.currentPeriodEnd) ∨
        (syncSubscription db i).resp = alreadyProcessedGenericResponse)) ∧
  (∀ (db : DB) (i : SyncInput),
      i.ledgerLookupFails = false → i.ledgerWriteFails = false →
      i.sessionID ≠ "" →
      findProcessedSessionBySessionID db i.sessionID = none →
      (syncCore db i).isMerged = true →
      ((syncSubscription db i).db.processedSessions.filter
          (fun p => p.sessionID == i.sessionID)).length = 1 ∧
      (syncSubscription (syncSubscription db i).db i).db = (syncSubscription db i).db ∧
      (syncSubscription (syncSubscription db i).db i).ops.all
          (fun o => !o.isProviderCall) = true ∧
      ((∃ c s, findCustomerByUserID (syncSubscription db i).db i.userID = some c ∧
          findActiveSubscriptionByCustomerID (syncSubscription db i).db c.id = some s ∧
          (syncSubscription (syncSubscription db i).db i).resp
            = alreadyProcessedFullResponse s.status s.currentPeriodEnd) ∨
        (syncSubscription (syncSubscription db i).db i).resp
          = alreadyProcessedGenericResponse)) ∧
  (∀ (db : DB) (i : SyncInput) (c : Customer) (sess : StripeSession)
      (cr : StripeCustomerRef) (ssub : StripeSub),
      db.customers = [c] → db.subscriptions = [] → db.processedSessions = [] →
      c.userID = i.userID → i.sessionID ≠ "" →
      i.ledgerLookupFails = false → i.ledgerWriteFails = false →
      i.fetchSession = some sess → sess.customer = some cr →
      sess.subscription = some ssub → ssub.status = "active" →
      ((syncSubscription db i).resp.body.lookup "subscription_status"
          = some (JVal.s "active") ∧
       (syncSubscription (syncSubscription db i).db i).resp.body.lookup
          "subscription_status" = some (JVal.s "active") ∧
       (syncSubscription db i).resp.body.lookup "current_period_end"
          = some (JVal.i ssub.currentPeriodEnd) ∧
       (syncSubscription (syncSubscription db i).db i).resp.body.lookup
          "current_period_end" = some (JVal.i ssub.currentPeriodEnd) ∧
       (syncSubscription (syncSubscription db i).db i).db = (syncSubscription db i).db ∧
       ((syncSubscription db i).db.processedSessions.filter
          (fun p => p.sessionID == i.sessionID)).length = 1)) := by
  refine ⟨?_, ?_, ?_⟩
  · intro db i ps hlf hl heq
    have hsync := sync_same_user_shape db i ps hlf hl heq
    refine ⟨by rw [hsync], by rw [hsync]; rfl, ?_⟩
    rw [hsync]
    exact shortCircuit_resp_cases db i.userID
  · intro db i hlf hwf hsid hfind hm
    have hlk : ledgerLookup db i = (none, true) := by
      simp [ledgerLookup, hlf, hfind]
    cases hc : syncCore db i with
    | early r d o =>
      rw [hc] at hm
      simp [SyncCoreResult.isMerged] at hm
    | merged db2 nc st pe ops =>
      obtain ⟨hnc, hpres⟩ := syncCore_merged_newly db i db2 nc st pe ops hc
      rw [hlk] at hnc
      simp at hnc
      subst hnc
      have ho1 : syncSubscription db i =
          ⟨syncSuccessResponse st pe,
           createProcessedSession db2 i.now i.sessionID i.userID,
           ops ++ [Op.dbWrite "stripe_processed_sessions"]⟩ := by
        simp [syncSubscription, hc, recordLedger, hsid, hwf]
      have hps1 : (syncSubscription db i).db.processedSessions
          = db.processedSessions ++ [⟨db2.nextID, i.sessionID, i.userID, i.now⟩] := by
        rw [ho1]
        simp [createProcessedSession, hpres]
      have hfind0 : db.processedSessions.find? (fun p => p.sessionID == i.sessionID)
          = none := hfind
      have hfind2 : findProcessedSessionBySessionID (syncSubscription db i).db i.sessionID
          = some ⟨db2.nextID, i.sessionID, i.userID, i.now⟩ := by
        unfold findProcessedSessionBySessionID
        rw [hps1, find_append_of_none _ _ _ hfind0]
        simp [List.find?]
      have ho2 := sync_same_user_shape (syncSubscription db i).db i
          ⟨db2.nextID, i.sessionID, i.userID, i.now⟩ hlf hfind2 rfl
      refine ⟨?_, by rw [ho2], by rw [ho2]; rfl, ?_⟩
      · rw [hps1, List.filter_append, filter_of_find_none _ _ hfind0]
        simp
      · rw [ho2]
        exact shortCircuit_resp_cases (syncSubscription db i).db i.userID
  · intro db i c sess cr ssub hcs hsubs hps hu hsid hlf hwf hf hcr hss hst
    rw [sync_fresh_run db i c sess cr ssub hcs hsubs hps hu hsid hlf hwf hf hcr hss]
    simp [syncSubscription, syncCore, ledgerLookup, hlf, findProcessedSessionBySessionID,
      List.find?, shortCircuitResponse, findCustomerByUserID, hu,
      findActiveSubscriptionByCustomerID, subscriptionStatusActive, hst,
      alreadyProcessedFullResponse, syncSuccessResponse, List.lookup]

/-- Database of the C3 witness short-circuit part: a processed session
cs_w recorded for user 8, whose customer has an active subscription. -/
def c3wdb : DB :=
  { customers := [⟨11, 8, "cus_w", "e8", "n8", 0, 0⟩]
    subscriptions := [⟨12, 11, "sub_w", "active", "price_W", 900, none, 0, 0⟩]
    processedSessions := [⟨13, "cs_w", 8, 0⟩]
    nextID := 50 }

/-- Repeat sync request for cs_w by the same user 8. -/
def c3win : SyncInput :=
  { sessionID := "cs_w", userID := 8, now := 2000, ledgerLookupFails := false,
    fetchSession := none, fetchCustomer := none, ledgerWriteFails := false }

/-- Customer of the C3 witness first-time part. -/
def c3fc : Customer := ⟨14, 3, "cus_f", "e3", "n3", 0, 0⟩

/-- Database of the C3 witness first-time part. -/
def c3fdb : DB :=
  { customers := [c3fc], subscriptions := [], processedSessions := [], nextID := 60 }

/-- Active provider subscription of the C3 witness first-time part. -/
def c3fsub : StripeSub := ⟨"sub_f", "active", 800, 0, none, [⟨some ⟨"price_F"⟩⟩]⟩

/-- Fetched session of the C3 witness first-time part. -/
def c3fsess : StripeSession := ⟨some ⟨"cus_f"⟩, some c3fsub⟩

/-- First-time sync request of the C3 witness. -/
def c3fin : SyncInput :=
  { sessionID := "cs_f", userID := 3, now := 2100, ledgerLookupFails := false,
    fetchSession := some c3fsess, fetchCustomer := none, ledgerWriteFails := false }

/-- Witness for C3 at concrete repeat and first-time syncs. -/
theorem c3_witness :
  ((syncSubscription c3wdb c3win).db = c3wdb ∧
   (syncSubscription c3wdb c3win).ops.all (fun o => !o.isProviderCall) = true ∧
   ((∃ c s, findCustomerByUserID c3wdb c3win.userID = some c ∧
       findActiveSubscriptionByCustomerID c3wdb c.id = some s ∧
       (syncSubscription c3wdb c3win).resp
         = alreadyProcessedFullResponse s.status s.currentPeriodEnd) ∨
     (syncSubscription c3wdb c3win).resp = alreadyProcessedGenericResponse)) ∧
  (((syncSubscription c3fdb c3fin).db.processedSessions.filter
      (fun p => p.sessionID == c3fin.sessionID)).length = 1 ∧
   (syncSubscription (syncSubscription c3fdb c3fin).db c3fin).db
      = (syncSubscription c3fdb c3fin).db ∧
   (syncSubscription (syncSubscription c3fdb c3fin).db c3fin).ops.all
      (fun o => !o.isProviderCall) = true ∧
   ((∃ c s, findCustomerByUserID (syncSubscription c3fdb c3fin).db c3fin.userID = some c ∧
       findActiveSubscriptionByCustomerID (syncSubscription c3fdb c3fin).db c.id = some s ∧
       (syncSubscription (syncSubscription c3fdb c3fin).db c3fin).resp
         = alreadyProcessedFullResponse s.status s.currentPeriodEnd) ∨
     (syncSubscription (syncSubscription c3fdb c3fin).db c3fin).resp
       = alreadyProcessedGenericResponse)) ∧
  ((syncSubscription c3fdb c3fin).resp.body.lookup "subscription_status"
      = some (JVal.s "active") ∧
   (syncSubscription (syncSubscription c3fdb c3fin).db c3fin).resp.body.lookup
      "subscription_status" = some (JVal.s "active") ∧
   (syncSubscription c3fdb c3fin).resp.body.lookup "current_period_end"
      = some (JVal.i c3fsub.currentPeriodEnd) ∧
   (syncSubscription (syncSubscription c3fdb c3fin).db c3fin).resp.body.lookup
      "current_period_end" = some (JVal.i c3fsub.currentPeriodEnd) ∧
   (syncSubscription (syncSubscription c3fdb c3fin).db c3fin).db
      = (syncSubscription c3fdb c3fin).db ∧
   ((syncSubscription c3fdb c3fin).db.processedSessions.filter
      (fun p => p.sessionID == c3fin.sessionID)).length = 1) :=
  ⟨c3_short_circuit_and_single_ledger_entry.1 c3wdb c3win ⟨13, "cs_w", 8, 0⟩
      (by decide) (by decide) (by decide),
   c3_short_circuit_and_single_ledger_entry.2.1 c3fdb c3fin
      (by decide) (by decide) (by decide) (by decide) (by decide),
   c3_short_circuit_and_single_ledger_entry.2.2 c3fdb c3fin c3fc c3fsess ⟨"cus_f"⟩ c3fsub
      (by decide) (by decide) (by decide) (by decide) (by decide) (by decide)
      (by decide) (by decide) (by decide) (by decide) (by decide)⟩

/-- C9 (amended): the price-id tie-break of the merge takes the first item
price id when the first item carries a price object (even when that id is
empty), and otherwise falls back to the fixed default price id hardcoded in
the handler; the tie-break result is nonempty whenever every supplied item
price id is nonempty.  Every session-scoped reconciliation merge stores
exactly the tie-break result in the written row: the update branch writes
it into the existing row and the create branch into the new row, and a
first-time sync therefore ends with the tie-break result stored. -/
theorem c9_price_tie_break :
  (∀ (p : StripePrice) (rest : List StripeItem),
      derivePriceID (⟨some p⟩ :: rest) = p.id) ∧
  (∀ rest : List StripeItem, derivePriceID (⟨none⟩ :: rest) = defaultPriceID) ∧
  derivePriceID [] = defaultPriceID ∧
  defaultPriceID ≠ "" ∧
  (∀ (items : List StripeItem),
      items.all (fun it => match it.price with
        | some p => p.id != ""
        | none => true) = true →
      derivePriceID items ≠ "") ∧
  (∀ (db : DB) (i : SyncInput) (ssub : StripeSub) (c : Customer) (newly : Bool)
      (ops : List Op) (s : Subscription),
      findSubscriptionByStripeID db ssub.id = some s →
      mergePhase db i ssub c newly ops
        = .merged (updateSubscription db i.now
            { s with status := ssub.status, currentPeriodEnd := ssub.currentPeriodEnd,
                     priceID := derivePriceID ssub.items })
            newly ssub.status ssub.currentPeriodEnd
            (ops ++ [Op.dbRead "stripe_subscriptions"]
              ++ [Op.dbWrite "stripe_subscriptions"])) ∧
  (∀ (db : DB) (i : SyncInput) (ssub : StripeSub) (c : Customer) (newly : Bool)
      (ops : List Op),
      findSubscriptionByStripeID db ssub.id = none →
      mergePhase db i ssub c newly ops
        = .merged (createSubscription db i.now c.id ssub.id (derivePriceID ssub.items)
            ssub.status ssub.currentPeriodEnd).2
            newly ssub.status ssub.currentPeriodEnd
            (ops ++ [Op.dbRead "stripe_subscriptions"]
              ++ [Op.dbWrite "stripe_subscriptions"])) ∧
  (∀ (db : DB) (i : SyncInput) (c : Customer) (sess : StripeSession)
      (cr : StripeCustomerRef) (ssub : StripeSub),
      db.customers = [c] → db.subscriptions = [] → db.processedSessions = [] →
      c.userID = i.userID → i.sessionID ≠ "" →
      i.ledgerLookupFails = false → i.ledgerWriteFails = false →
      i.fetchSession = some sess → sess.customer = some cr →
      sess.subscription = some ssub →
      (syncSubscription db i).db.subscriptions.map (fun s => s.priceID)
        = [derivePriceID ssub.items]) := by
  refine ⟨fun p rest => rfl, fun rest => rfl, rfl, by decide, ?_, ?_, ?_, ?_⟩
  · intro items h
    cases items with
    | nil => decide
    | cons it rest =>
      cases hp : it.price with
      | none =>
        simp [derivePriceID, hp]
        decide
      | some p =>
        simp [derivePriceID, hp]
        simp [List.all_cons, hp] at h
        exact h.1
  · intro db i ssub c newly ops s h
    simp [mergePhase, h]
  · intro db i ssub c newly ops h
    simp [mergePhase, h]
  · intro db i c sess cr ssub hcs hsubs hps hu hsid hlf hwf hf hcr hss
    rw [sync_fresh_run db i c sess cr ssub hcs hsubs hps hu hsid hlf hwf hf hcr hss]
    rfl

/-- Customer of the C9 witness. -/
def c9wc : Customer := ⟨21, 15, "cus_9w", "e15", "n15", 0, 0⟩

/-- Database of the C9 witness: the lone customer of user 15. -/
def c9wdb : DB :=
  { customers := [c9wc], subscriptions := [], processedSessions := [], nextID := 210 }

/-- Provider subscription of the C9 witness, with a nonempty price id. -/
def c9wsub : StripeSub := ⟨"sub_9w", "active", 610, 0, none, [⟨some ⟨"price_w9"⟩⟩]⟩

/-- Fetched session of the C9 witness. -/
def c9wsess : StripeSession := ⟨some ⟨"cus_9w"⟩, some c9wsub⟩

/-- Sync request of the C9 witness. -/
def c9win : SyncInput :=
  { sessionID := "cs_9w", userID := 15, now := 1200, ledgerLookupFails := false,
    fetchSession := some c9wsess, fetchCustomer := none, ledgerWriteFails := false }

/-- Existing subscription row updated by the C9 witness update-branch
merge. -/
def c9urow : Subscription := ⟨22, 21, "sub_9u", "trialing", "price_old", 500, none, 0, 0⟩

/-- Database of the C9 witness update-branch merge: holds the existing row
for provider subscription sub_9u. -/
def c9udb : DB :=
  { customers := [c9wc], subscriptions := [c9urow],
    processedSessions := [], nextID := 230 }

/-- Provider subscription of the C9 witness update-branch merge. -/
def c9usub : StripeSub := ⟨"sub_9u", "active", 620, 0, none, [⟨some ⟨"price_new"⟩⟩]⟩

/-- Sync request of the C9 witness merge-branch instances. -/
def c9uin : SyncInput :=
  { sessionID := "cs_9u", userID := 15, now := 1300, ledgerLookupFails := false,
    fetchSession := none, fetchCustomer := none, ledgerWriteFails := false }

/-- Witness for C9 at concrete update-branch, create-branch and end-to-end
merges with a nonempty price id. -/
theorem c9_witness :
  derivePriceID (⟨some ⟨"price_w9"⟩⟩ :: []) = "price_w9" ∧
  derivePriceID [⟨some ⟨"price_w9"⟩⟩] ≠ "" ∧
  mergePhase c9udb c9uin c9usub c9wc true []
    = .merged (updateSubscription c9udb c9uin.now
        { c9urow with status := c9usub.status, currentPeriodEnd := c9usub.currentPeriodEnd,
                      priceID := derivePriceID c9usub.items })
        true c9usub.status c9usub.currentPeriodEnd
        ([] ++ [Op.dbRead "stripe_subscriptions"] ++ [Op.dbWrite "stripe_subscriptions"]) ∧
  mergePhase c9wdb c9uin c9wsub c9wc true []
    = .merged (createSubscription c9wdb c9uin.now c9wc.id c9wsub.id
        (derivePriceID c9wsub.items) c9wsub.status c9wsub.currentPeriodEnd).2
        true c9wsub.status c9wsub.currentPeriodEnd
        ([] ++ [Op.dbRead "stripe_subscriptions"] ++ [Op.dbWrite "stripe_subscriptions"]) ∧
  (syncSubscription c9wdb c9win).db.subscriptions.map (fun s => s.priceID)
    = [derivePriceID c9wsub.items] :=
  ⟨c9_price_tie_break.1 ⟨"price_w9"⟩ [],
   c9_price_tie_break.2.2.2.2.1 [⟨some ⟨"price_w9"⟩⟩] (by decide),
   c9_price_tie_break.2.2.2.2.2.1 c9udb c9uin c9usub c9wc true [] c9urow (by decide),
   c9_price_tie_break.2.2.2.2.2.2.1 c9wdb c9uin c9wsub c9wc true [] (by decide),
   c9_price_tie_break.2.2.2.2.2.2.2 c9wdb c9win c9wc c9wsess ⟨"cus_9w"⟩ c9wsub
     (by decide) (by decide) (by decide) (by decide) (by decide)
     (by decide) (by decide) (by decide) (by decide) (by decide)⟩

/-- Witness for C10 at a concrete unhandled event. -/
theorem c10_witness :
  handleWebhook ⟨[], [], [], 0⟩ 0 0 c10ev = ⟨webhookSuccessResponse, ⟨[], [], [], 0⟩, []⟩ :=
  c10_unhandled_event_no_state_access ⟨[], [], [], 0⟩ 0 0 c10ev
    rfl (by decide) (by decide) (by decide)

end GoStripe
